import Mathlib

/-!
Shallow embedding of the camera subsystem of the agl game engine
(`gamelib/src/Camera.cpp`, `gamelib/src/CameraController.cpp` and their
headers), over exact real arithmetic.  Machine `float` values are modelled
by `ℝ`; `glm` vector operations are translated component-wise.  An
operation of the source that divides by a vanishing length (so that the
C++ code would produce non-finite values) is modelled with `Option`:
`none` stands for the propagation of NaN, `some` for a well-defined
result.
-/

namespace AGL

/-- Embeds `glm::vec3`, with real components. -/
structure Vec3 where
  x : ℝ
  y : ℝ
  z : ℝ

namespace Vec3

@[ext] theorem ext' {a b : Vec3} (hx : a.x = b.x) (hy : a.y = b.y) (hz : a.z = b.z) :
    a = b := by
  cases a; cases b; simp_all

instance : Add Vec3 := ⟨fun a b => ⟨a.x + b.x, a.y + b.y, a.z + b.z⟩⟩
instance : Sub Vec3 := ⟨fun a b => ⟨a.x - b.x, a.y - b.y, a.z - b.z⟩⟩
instance : Neg Vec3 := ⟨fun a => ⟨-a.x, -a.y, -a.z⟩⟩
instance : SMul ℝ Vec3 := ⟨fun c a => ⟨c * a.x, c * a.y, c * a.z⟩⟩
instance : Zero Vec3 := ⟨⟨0, 0, 0⟩⟩

@[simp] theorem add_def (a b : Vec3) : a + b = ⟨a.x + b.x, a.y + b.y, a.z + b.z⟩ := rfl
@[simp] theorem sub_def (a b : Vec3) : a - b = ⟨a.x - b.x, a.y - b.y, a.z - b.z⟩ := rfl
@[simp] theorem neg_def (a : Vec3) : -a = ⟨-a.x, -a.y, -a.z⟩ := rfl
@[simp] theorem smul_def (c : ℝ) (a : Vec3) : c • a = ⟨c * a.x, c * a.y, c * a.z⟩ := rfl
@[simp] theorem zero_x : (0 : Vec3).x = 0 := rfl
@[simp] theorem zero_y : (0 : Vec3).y = 0 := rfl
@[simp] theorem zero_z : (0 : Vec3).z = 0 := rfl

/-- Embeds `glm::dot`. -/
def dot (a b : Vec3) : ℝ := a.x * b.x + a.y * b.y + a.z * b.z

/-- Embeds `glm::cross`. -/
def cross (a b : Vec3) : Vec3 :=
  ⟨a.y * b.z - a.z * b.y, a.z * b.x - a.x * b.z, a.x * b.y - a.y * b.x⟩

/-- Embeds `glm::length`. -/
noncomputable def length (v : Vec3) : ℝ := Real.sqrt (dot v v)

/-- Embeds `glm::normalize`, `v * inversesqrt(dot(v, v))`.  At the zero vector the
C++ code divides by zero (NaN); here the division yields the junk value `0`,
and the NaN-producing call sites use `normalizeOpt` instead. -/
noncomputable def normalize (v : Vec3) : Vec3 := (1 / length v) • v

/-- Embeds `glm::normalize` with the degenerate input made explicit: `none` models
the NaN components the C++ code produces on a zero-length vector. -/
noncomputable def normalizeOpt (v : Vec3) : Option Vec3 :=
  if length v = 0 then none else some (normalize v)

theorem length_eq_one_of_dot (v : Vec3) (h : dot v v = 1) : length v = 1 := by
  unfold length; rw [h]; exact Real.sqrt_one

theorem normalize_of_length_one {v : Vec3} (h : length v = 1) : normalize v = v := by
  unfold normalize
  rw [h]
  ext <;> simp

@[simp] theorem length_zero : length (0 : Vec3) = 0 := by
  unfold length dot
  simp

end Vec3

/-- Embeds `glm::vec2`, with real components. -/
structure Vec2 where
  x : ℝ
  y : ℝ

namespace Vec2

instance : Zero Vec2 := ⟨⟨0, 0⟩⟩

end Vec2

/-- Embeds `glm::radians`: degrees to radians. -/
noncomputable def radians (x : ℝ) : ℝ := x * Real.pi / 180

/-- Embeds `glm::degrees`: radians to degrees. -/
noncomputable def degrees (x : ℝ) : ℝ := x * 180 / Real.pi

/-- Embeds `std::clamp(v, lo, hi)`. -/
def clampR (v lo hi : ℝ) : ℝ := max lo (min v hi)

/-- Embeds `glm::mix(x, y, a) = x + a * (y - x)`. -/
def mixR (x y a : ℝ) : ℝ := x + a * (y - x)

/-- C `atan2(y, x)`. -/
noncomputable def atan2 (y x : ℝ) : ℝ :=
  if 0 < x then Real.arctan (y / x)
  else if x < 0 then
    (if 0 ≤ y then Real.arctan (y / x) + Real.pi else Real.arctan (y / x) - Real.pi)
  else
    (if 0 < y then Real.pi / 2 else if y < 0 then -(Real.pi / 2) else 0)

/-- Embeds `agl::CameraType`. -/
inductive CameraType where
  | Perspective
  | Orthographic
deriving DecidableEq

/-- Default camera constants from `Camera.h`. -/
def YAW : ℝ := -90

def PITCH : ℝ := 0

def ROLL : ℝ := 0

noncomputable def SPEED : ℝ := 5 / 2

noncomputable def SENSITIVITY : ℝ := 1 / 10

def ZOOM : ℝ := 45

noncomputable def NEAR_PLANE : ℝ := 1 / 10

def FAR_PLANE : ℝ := 1000

/-- Embeds `agl::Camera` state (`Camera.h`). -/
structure Camera where
  Position : Vec3
  Front : Vec3
  Up : Vec3
  Right : Vec3
  WorldUp : Vec3
  Yaw : ℝ
  Pitch : ℝ
  Roll : ℝ
  MovementSpeed : ℝ
  MouseSensitivity : ℝ
  Zoom : ℝ
  NearPlane : ℝ
  FarPlane : ℝ
  AspectRatio : ℝ
  OrthoLeft : ℝ
  OrthoRight : ℝ
  OrthoBottom : ℝ
  OrthoTop : ℝ
  projectionType : CameraType

/-- The rotation of `glm::rotate(mat4(1), θ, axis)` applied to a vector:
Rodrigues' formula `cos θ · v + sin θ · (a × v) + (1 - cos θ)(a · v) a` with
`a` the normalized axis (`glm::rotate` normalizes its axis argument). -/
noncomputable def rodrigues (θ : ℝ) (axisIn v : Vec3) : Vec3 :=
  let a := Vec3.normalize axisIn
  Real.cos θ • v + Real.sin θ • Vec3.cross a v + ((1 - Real.cos θ) * Vec3.dot a v) • a

/-- The raw front vector of `Camera::UpdateCameraVectors`
(Camera.cpp:222-225). -/
noncomputable def frontRaw (cam : Camera) : Vec3 :=
  ⟨Real.cos (radians cam.Yaw) * Real.cos (radians cam.Pitch),
   Real.sin (radians cam.Pitch),
   Real.sin (radians cam.Yaw) * Real.cos (radians cam.Pitch)⟩

/-- Embeds `Front` as computed by `UpdateCameraVectors` (Camera.cpp:226). -/
noncomputable def camFront (cam : Camera) : Vec3 := Vec3.normalize (frontRaw cam)

/-- Embeds `Right` before the roll rotation (Camera.cpp:229). -/
noncomputable def camRight (cam : Camera) : Vec3 :=
  Vec3.normalize (Vec3.cross (camFront cam) cam.WorldUp)

/-- Embeds `Up` before the roll rotation (Camera.cpp:230). -/
noncomputable def camUp (cam : Camera) : Vec3 :=
  Vec3.normalize (Vec3.cross (camRight cam) (camFront cam))

/-- Embeds `Camera::UpdateCameraVectors` (Camera.cpp:220-238). -/
noncomputable def updateCameraVectors (cam : Camera) : Camera :=
  if 1 / 1000 < |cam.Roll| then
    { cam with Front := camFront cam,
               Right := rodrigues (radians cam.Roll) (camFront cam) (camRight cam),
               Up := rodrigues (radians cam.Roll) (camFront cam) (camUp cam) }
  else
    { cam with Front := camFront cam, Right := camRight cam, Up := camUp cam }

/-- The `Camera` constructor (Camera.cpp:8-29): member initialization
followed by `UpdateCameraVectors`.  `Right`/`Up` are value-initialized
placeholders before the update overwrites them, as in the C++ object. -/
noncomputable def mkCamera (position up : Vec3) (yaw pitch roll : ℝ) : Camera :=
  updateCameraVectors
    { Position := position
      Front := ⟨0, 0, -1⟩
      Up := 0
      Right := 0
      WorldUp := up
      Yaw := yaw
      Pitch := pitch
      Roll := roll
      MovementSpeed := SPEED
      MouseSensitivity := SENSITIVITY
      Zoom := ZOOM
      NearPlane := NEAR_PLANE
      FarPlane := FAR_PLANE
      AspectRatio := 16 / 9
      OrthoLeft := -10
      OrthoRight := 10
      OrthoBottom := -10
      OrthoTop := 10
      projectionType := CameraType.Perspective }

/-- A camera built with all constructor defaults. -/
noncomputable def defaultCamera : Camera := mkCamera ⟨0, 0, 0⟩ ⟨0, 1, 0⟩ YAW PITCH ROLL

/-- Embeds `Camera::ProcessMouseMovement` (Camera.cpp:85-99). -/
noncomputable def processMouseMovement (cam : Camera) (xoffset yoffset : ℝ)
    (constrainPitch : Bool) : Camera :=
  let xo := xoffset * cam.MouseSensitivity
  let yo := yoffset * cam.MouseSensitivity
  let yaw := cam.Yaw + xo
  let pitch0 := cam.Pitch + yo
  let pitch := if constrainPitch then clampR pitch0 (-89) 89 else pitch0
  updateCameraVectors { cam with Yaw := yaw, Pitch := pitch }

/-- Embeds `Camera::SetRotation` (Camera.cpp:115-121). -/
noncomputable def setRotation (cam : Camera) (yaw pitch roll : ℝ) : Camera :=
  updateCameraVectors
    { cam with Yaw := yaw, Pitch := clampR pitch (-89) 89, Roll := roll }

/-- Embeds `Camera::LookAt` (Camera.cpp:124-136).  The direction to the target is
normalized with no guard; when the target coincides with the position the
C++ `glm::normalize` produces NaN components that flow into `Yaw`, `Pitch`
and the basis vectors, modelled here by `none`. -/
noncomputable def lookAtC (cam : Camera) (target : Vec3) : Option Camera :=
  (Vec3.normalizeOpt (target - cam.Position)).map fun direction =>
    let yaw := degrees (atan2 direction.z direction.x)
    let pitch := clampR (degrees (Real.arcsin (-direction.y))) (-89) 89
    updateCameraVectors { cam with Yaw := yaw, Pitch := pitch }

/-- Embeds `Camera::SetPerspective` (Camera.cpp:139-147); the header defaults the
last two parameters to `NEAR_PLANE` and `FAR_PLANE` (Camera.h:549). -/
def setPerspective (cam : Camera) (fov aspectRatio nearPlane farPlane : ℝ) : Camera :=
  { cam with projectionType := CameraType.Perspective
             Zoom := fov
             AspectRatio := aspectRatio
             NearPlane := nearPlane
             FarPlane := farPlane }

/-- Embeds `Camera::SetOrthographic` (Camera.cpp:150-160). -/
def setOrthographic (cam : Camera) (left right bottom top nearPlane farPlane : ℝ) : Camera :=
  { cam with projectionType := CameraType.Orthographic
             OrthoLeft := left
             OrthoRight := right
             OrthoBottom := bottom
             OrthoTop := top
             NearPlane := nearPlane
             FarPlane := farPlane }

/-- Embeds `agl::CameraMode` (CameraController.h). -/
inductive CameraMode where
  | FirstPerson
  | ThirdPerson
  | Spectator
  | Fixed
deriving DecidableEq

/-- Embeds `agl::CameraSettings` (CameraController.h:55-225). -/
structure CameraSettings where
  movementSpeed : ℝ
  sprintMultiplier : ℝ
  crouchMultiplier : ℝ
  mouseSensitivity : ℝ
  invertY : Bool
  movementSmoothing : ℝ
  rotationSmoothing : ℝ
  thirdPersonDistance : ℝ
  thirdPersonHeight : ℝ
  thirdPersonOffset : Vec3
  constrainPitch : Bool
  minPitch : ℝ
  maxPitch : ℝ
  defaultFOV : ℝ
  sprintFOV : ℝ
  aimFOV : ℝ
  fovTransitionSpeed : ℝ
  shakeIntensity : ℝ
  shakeDamping : ℝ

/-- The in-class member initializers of `CameraSettings`. -/
noncomputable def defaultSettings : CameraSettings :=
  { movementSpeed := 5
    sprintMultiplier := 2
    crouchMultiplier := 1 / 2
    mouseSensitivity := 1 / 10
    invertY := false
    movementSmoothing := 1 / 10
    rotationSmoothing := 1 / 10
    thirdPersonDistance := 5
    thirdPersonHeight := 2
    thirdPersonOffset := 0
    constrainPitch := true
    minPitch := -89
    maxPitch := 89
    defaultFOV := 75
    sprintFOV := 85
    aimFOV := 50
    fovTransitionSpeed := 5
    shakeIntensity := 1
    shakeDamping := 5 }

/-- The controller-owned state of `agl::CameraController`
(CameraController.h); the attached `Camera` is kept separately and the
operations that touch it return a `Controller × Camera` pair. -/
structure Controller where
  mode : CameraMode
  settings : CameraSettings
  target : Vec3
  isAiming : Bool
  isSprinting : Bool
  isCrouching : Bool
  inputEnabled : Bool
  smoothingEnabled : Bool
  velocitySmooth : Vec3
  rotationSmooth : Vec2
  targetFOV : ℝ
  currentFOV : ℝ
  shakeIntensity : ℝ
  shakeDuration : ℝ
  shakeTimer : ℝ
  shakeOffset : Vec3

/-- The default `CameraController` constructor (CameraController.cpp:9-33). -/
noncomputable def defaultController : Controller :=
  { mode := CameraMode.FirstPerson
    settings := defaultSettings
    target := 0
    isAiming := false
    isSprinting := false
    isCrouching := false
    inputEnabled := true
    smoothingEnabled := true
    velocitySmooth := 0
    rotationSmooth := 0
    targetFOV := 75
    currentFOV := 75
    shakeIntensity := 0
    shakeDuration := 0
    shakeTimer := 0
    shakeOffset := 0 }

/-- Embeds `CameraController::SetMode` (CameraController.cpp:94-103). -/
def setMode (s : Controller) (mode : CameraMode) : Controller :=
  if s.mode ≠ mode then
    { s with mode := mode, velocitySmooth := 0, rotationSmooth := 0 }
  else s

/-- Embeds `CameraController::StartAiming` (CameraController.cpp:125-131). -/
def startAiming (s : Controller) : Controller :=
  if !s.isAiming then
    { s with isAiming := true, targetFOV := s.settings.aimFOV }
  else s

/-- Embeds `CameraController::StopAiming` (CameraController.cpp:133-139). -/
def stopAiming (s : Controller) : Controller :=
  if s.isAiming then
    { s with isAiming := false
             targetFOV := if s.isSprinting then s.settings.sprintFOV else s.settings.defaultFOV }
  else s

/-- Embeds `CameraController::StartSprinting` (CameraController.cpp:141-149). -/
def startSprinting (s : Controller) : Controller :=
  if !s.isSprinting then
    if !s.isAiming then
      { s with isSprinting := true, targetFOV := s.settings.sprintFOV }
    else
      { s with isSprinting := true }
  else s

/-- Embeds `CameraController::StopSprinting` (CameraController.cpp:151-159). -/
def stopSprinting (s : Controller) : Controller :=
  if s.isSprinting then
    if !s.isAiming then
      { s with isSprinting := false, targetFOV := s.settings.defaultFOV }
    else
      { s with isSprinting := false }
  else s

/-- Embeds `CameraController::AddShake` (CameraController.cpp:175-180). -/
def addShake (s : Controller) (intensity duration : ℝ) : Controller :=
  let si := max s.shakeIntensity (intensity * s.settings.shakeIntensity)
  let sd := max s.shakeDuration duration
  { s with shakeIntensity := si, shakeDuration := sd, shakeTimer := sd }

/-- Embeds `CameraController::ClearShake` (CameraController.cpp:182-188). -/
def clearShake (s : Controller) : Controller :=
  { s with shakeIntensity := 0, shakeDuration := 0, shakeTimer := 0, shakeOffset := 0 }

/-- Embeds `CameraController::SetFOV` (CameraController.cpp:190-193). -/
def setFOV (s : Controller) (fov : ℝ) : Controller := { s with targetFOV := fov }

/-- Embeds `CameraController::UpdateFOV` (CameraController.cpp:331-339).  The call
`m_camera->SetPerspective(m_currentFOV, m_camera->GetAspectRatio())` uses
the header's defaulted `nearPlane`/`farPlane` parameters (Camera.h:549). -/
noncomputable def updateFOV (s : Controller) (cam : Camera) (dt : ℝ) : Controller × Camera :=
  if 1 / 10 < |s.currentFOV - s.targetFOV| then
    let cur := mixR s.currentFOV s.targetFOV (s.settings.fovTransitionSpeed * dt)
    ({ s with currentFOV := cur },
     setPerspective cam cur cam.AspectRatio NEAR_PLANE FAR_PLANE)
  else (s, cam)

/-- The shake offset sampled by one `UpdateShake` tick
(CameraController.cpp:350-353), with the three `dis(gen)` draws passed in
as `r`; the timer has already been decremented when the scale
`m_shakeIntensity * (m_shakeTimer / m_shakeDuration)` is read. -/
noncomputable def shakeSample (s : Controller) (dt : ℝ) (r : Vec3) : Vec3 :=
  let scale := s.shakeIntensity * ((s.shakeTimer - dt) / s.shakeDuration)
  ⟨r.x * scale, r.y * scale, r.z * scale * (1 / 2)⟩

/-- Embeds `CameraController::UpdateShake` (CameraController.cpp:341-369). -/
noncomputable def updateShake (s : Controller) (cam : Camera) (dt : ℝ) (r : Vec3) :
    Controller × Camera :=
  if 0 < s.shakeTimer then
    let off := shakeSample s dt r
    ({ s with shakeTimer := s.shakeTimer - dt
              shakeOffset := off
              shakeIntensity := max 0 (s.shakeIntensity - s.settings.shakeDamping * dt) },
     { cam with Position := cam.Position + off })
  else if 0 < s.shakeIntensity then (clearShake s, cam)
  else (s, cam)

/-- A run of `UpdateShake` ticks, each with its `dt` and its three random
draws. -/
noncomputable def runShake : Controller × Camera → List (ℝ × Vec3) → Controller × Camera
  | st, [] => st
  | (s, cam), (dt, r) :: rest => runShake (updateShake s cam dt r) rest

/-- The offsets that the ticks of a run actually add to the camera position
(one per tick whose entry guard `m_shakeTimer > 0` holds). -/
noncomputable def appliedOffsets : Controller × Camera → List (ℝ × Vec3) → List Vec3
  | _, [] => []
  | (s, cam), (dt, r) :: rest =>
      if 0 < s.shakeTimer then
        shakeSample s dt r :: appliedOffsets (updateShake s cam dt r) rest
      else
        appliedOffsets (updateShake s cam dt r) rest

/-- Componentwise sum of a list of vectors. -/
def vsum : List Vec3 → Vec3
  | [] => 0
  | v :: rest => v + vsum rest

/-! ### Algebraic facts about the vector operations -/

namespace Vec3

theorem add_zero' (v : Vec3) : v + 0 = v :=
  ext' (add_zero v.x) (add_zero v.y) (add_zero v.z)

theorem add_assoc' (a b c : Vec3) : a + b + c = a + (b + c) :=
  ext' (add_assoc a.x b.x c.x) (add_assoc a.y b.y c.y) (add_assoc a.z b.z c.z)

theorem add_comm' (a b : Vec3) : a + b = b + a :=
  ext' (add_comm a.x b.x) (add_comm a.y b.y) (add_comm a.z b.z)

theorem smul_smul' (c d : ℝ) (v : Vec3) : c • (d • v) = (c * d) • v :=
  ext' (mul_assoc c d v.x).symm (mul_assoc c d v.y).symm (mul_assoc c d v.z).symm

theorem one_smul' (v : Vec3) : (1 : ℝ) • v = v :=
  ext' (one_mul v.x) (one_mul v.y) (one_mul v.z)

theorem zero_smul' (v : Vec3) : (0 : ℝ) • v = 0 :=
  ext' (zero_mul v.x) (zero_mul v.y) (zero_mul v.z)

theorem smul_neg' (c : ℝ) (v : Vec3) : c • (-v) = (-c) • v :=
  ext' ((mul_neg c v.x).trans (neg_mul c v.x).symm)
    ((mul_neg c v.y).trans (neg_mul c v.y).symm)
    ((mul_neg c v.z).trans (neg_mul c v.z).symm)

theorem length_smul (c : ℝ) (v : Vec3) : length (c • v) = |c| * length v := by
  unfold length
  have h : dot (c • v) (c • v) = c ^ 2 * dot v v := by
    unfold dot
    dsimp only [smul_def]
    rw [mul_mul_mul_comm c v.x c v.x, mul_mul_mul_comm c v.y c v.y,
      mul_mul_mul_comm c v.z c v.z, ← mul_add, ← mul_add, ← pow_two]
  rw [h, Real.sqrt_mul (sq_nonneg c), Real.sqrt_sq_eq_abs]

theorem normalize_smul_pos {c : ℝ} (hc : 0 < c) {v : Vec3} (hv : length v = 1) :
    normalize (c • v) = v := by
  unfold normalize
  rw [length_smul, hv, abs_of_pos hc, mul_one, smul_smul', one_div,
    inv_mul_cancel₀ (ne_of_gt hc), one_smul']

theorem dot_comm (a b : Vec3) : dot a b = dot b a := by
  unfold dot
  rw [mul_comm a.x b.x, mul_comm a.y b.y, mul_comm a.z b.z]

theorem dot_add_left (a b c : Vec3) : dot (a + b) c = dot a c + dot b c := by
  unfold dot
  dsimp only [add_def]
  rw [add_mul, add_mul, add_mul,
    add_add_add_comm (a.x * c.x) (b.x * c.x) (a.y * c.y) (b.y * c.y),
    add_add_add_comm (a.x * c.x + a.y * c.y) (b.x * c.x + b.y * c.y)
      (a.z * c.z) (b.z * c.z)]

theorem dot_add_right (a b c : Vec3) : dot a (b + c) = dot a b + dot a c := by
  unfold dot
  dsimp only [add_def]
  rw [mul_add, mul_add, mul_add,
    add_add_add_comm (a.x * b.x) (a.x * c.x) (a.y * b.y) (a.y * c.y),
    add_add_add_comm (a.x * b.x + a.y * b.y) (a.x * c.x + a.y * c.y)
      (a.z * b.z) (a.z * c.z)]

theorem dot_smul_left (c : ℝ) (a b : Vec3) : dot (c • a) b = c * dot a b := by
  unfold dot
  dsimp only [smul_def]
  rw [mul_assoc, mul_assoc, mul_assoc, ← mul_add, ← mul_add]

theorem dot_smul_right (c : ℝ) (a b : Vec3) : dot a (c • b) = c * dot a b := by
  unfold dot
  dsimp only [smul_def]
  rw [mul_left_comm a.x c b.x, mul_left_comm a.y c b.y, mul_left_comm a.z c b.z,
    ← mul_add, ← mul_add]

end Vec3

/-! ### Field-tracking lemmas for the camera operations -/

theorem updateCameraVectors_Position (cam : Camera) :
    (updateCameraVectors cam).Position = cam.Position := by
  unfold updateCameraVectors; split <;> rfl

theorem updateCameraVectors_Pitch (cam : Camera) :
    (updateCameraVectors cam).Pitch = cam.Pitch := by
  unfold updateCameraVectors; split <;> rfl

theorem updateCameraVectors_Roll (cam : Camera) :
    (updateCameraVectors cam).Roll = cam.Roll := by
  unfold updateCameraVectors; split <;> rfl

theorem updateCameraVectors_WorldUp (cam : Camera) :
    (updateCameraVectors cam).WorldUp = cam.WorldUp := by
  unfold updateCameraVectors; split <;> rfl

theorem updateCameraVectors_MouseSensitivity (cam : Camera) :
    (updateCameraVectors cam).MouseSensitivity = cam.MouseSensitivity := by
  unfold updateCameraVectors; split <;> rfl

theorem updateCameraVectors_Front (cam : Camera) :
    (updateCameraVectors cam).Front = camFront cam := by
  unfold updateCameraVectors; split <;> rfl

theorem updateCameraVectors_Right_roll (cam : Camera) (h : 1 / 1000 < |cam.Roll|) :
    (updateCameraVectors cam).Right =
      rodrigues (radians cam.Roll) (camFront cam) (camRight cam) := by
  unfold updateCameraVectors; rw [if_pos h]

theorem updateCameraVectors_Up_roll (cam : Camera) (h : 1 / 1000 < |cam.Roll|) :
    (updateCameraVectors cam).Up =
      rodrigues (radians cam.Roll) (camFront cam) (camUp cam) := by
  unfold updateCameraVectors; rw [if_pos h]

theorem updateCameraVectors_Right_steady (cam : Camera) (h : ¬ 1 / 1000 < |cam.Roll|) :
    (updateCameraVectors cam).Right = camRight cam := by
  unfold updateCameraVectors; rw [if_neg h]

theorem updateCameraVectors_Up_steady (cam : Camera) (h : ¬ 1 / 1000 < |cam.Roll|) :
    (updateCameraVectors cam).Up = camUp cam := by
  unfold updateCameraVectors; rw [if_neg h]

theorem updateFOV_fst_targetFOV (s : Controller) (cam : Camera) (dt : ℝ) :
    ((updateFOV s cam dt).1).targetFOV = s.targetFOV := by
  unfold updateFOV; split <;> rfl

theorem updateFOV_fst_settings (s : Controller) (cam : Camera) (dt : ℝ) :
    ((updateFOV s cam dt).1).settings = s.settings := by
  unfold updateFOV; split <;> rfl

theorem updateFOV_fst_currentFOV (s : Controller) (cam : Camera) (dt : ℝ) :
    ((updateFOV s cam dt).1).currentFOV =
      if 1 / 10 < |s.currentFOV - s.targetFOV| then
        mixR s.currentFOV s.targetFOV (s.settings.fovTransitionSpeed * dt)
      else s.currentFOV := by
  unfold updateFOV; split <;> rfl

theorem updateFOV_of_close (s : Controller) (cam : Camera) (dt : ℝ)
    (h : ¬ 1 / 10 < |s.currentFOV - s.targetFOV|) : updateFOV s cam dt = (s, cam) := by
  unfold updateFOV; exact if_neg h

/-! ### Claims -/

/-- C9: `SetMode(B)` from a different mode `A` switches the mode and zeroes
both smoothing accumulators; `SetMode` with the current mode leaves the
whole controller state unchanged (CameraController.cpp:94-103). -/
theorem claim_C9_mode_switch_reset (s : Controller) (a b : CameraMode)
    (hmode : s.mode = a) (hne : a ≠ b) :
    (setMode s b).mode = b ∧ (setMode s b).velocitySmooth = 0 ∧
      (setMode s b).rotationSmooth = 0 ∧ setMode s a = s := by
  subst hmode
  refine ⟨?_, ?_, ?_, ?_⟩ <;> simp [setMode, hne]

/-- Witness for C9 at a concrete controller and mode pair. -/
theorem claim_C9_witness :
    (setMode defaultController CameraMode.Spectator).mode = CameraMode.Spectator ∧
    (setMode defaultController CameraMode.Spectator).velocitySmooth = 0 ∧
    (setMode defaultController CameraMode.Spectator).rotationSmooth = 0 ∧
    setMode defaultController CameraMode.FirstPerson = defaultController :=
  claim_C9_mode_switch_reset defaultController CameraMode.FirstPerson CameraMode.Spectator
    rfl (by decide)

/-- C8 counterexample: the claim quantifies over every controller state, but
`StartAiming` is guarded by `if (!m_isAiming)` (CameraController.cpp:126), so
on a state that is already aiming with `targetFOV = 30` it does not set
`targetFOV` to the `aimFOV` of 50. -/
theorem claim_C8_counterexample :
    (startAiming { defaultController with isAiming := true, targetFOV := 30 }).targetFOV = 30 ∧
    ({ defaultController with isAiming := true, targetFOV := 30 } : Controller).settings.aimFOV
        = 50 ∧
    (30 : ℝ) ≠ 50 := by
  refine ⟨?_, rfl, by norm_num⟩
  simp [startAiming]

/-- C8 amended: restricted to calls that actually change the flag (the four
operations are no-ops when the flag already has the target value), aiming
sets `targetFOV = aimFOV`, un-aiming restores `sprintFOV` or `defaultFOV`
according to `isSprinting`, and the sprint transitions write `targetFOV`
only while not aiming (CameraController.cpp:125-159). -/
theorem claim_C8_fov_priority (s : Controller) :
    (s.isAiming = false → (startAiming s).targetFOV = s.settings.aimFOV) ∧
    (s.isAiming = true → (stopAiming s).targetFOV =
        (if s.isSprinting then s.settings.sprintFOV else s.settings.defaultFOV)) ∧
    (s.isSprinting = false → s.isAiming = false →
        (startSprinting s).targetFOV = s.settings.sprintFOV) ∧
    (s.isSprinting = false → s.isAiming = true →
        (startSprinting s).targetFOV = s.targetFOV) ∧
    (s.isSprinting = true → s.isAiming = false →
        (stopSprinting s).targetFOV = s.settings.defaultFOV) ∧
    (s.isSprinting = true → s.isAiming = true →
        (stopSprinting s).targetFOV = s.targetFOV) := by
  refine ⟨fun h => ?_, fun h => ?_, fun h h2 => ?_, fun h h2 => ?_, fun h h2 => ?_,
    fun h h2 => ?_⟩ <;>
    simp [startAiming, stopAiming, startSprinting, stopSprinting, h]
  all_goals simp [h2]

/-- Witness for C8 on the default controller (not aiming, not sprinting). -/
theorem claim_C8_witness :
    (startAiming defaultController).targetFOV = defaultController.settings.aimFOV ∧
    (startSprinting defaultController).targetFOV = defaultController.settings.sprintFOV :=
  ⟨(claim_C8_fov_priority defaultController).1 rfl,
   (claim_C8_fov_priority defaultController).2.2.1 rfl rfl⟩

/-- C5: while an FOV transition is in progress, `UpdateFOV` calls
`SetPerspective(fov, aspect)` whose defaulted parameters overwrite the
camera's near plane with `NEAR_PLANE = 0.1` and far plane with
`FAR_PLANE = 1000` and force the perspective projection type, discarding
any caller-configured planes or orthographic mode
(CameraController.cpp:331-339, Camera.h:549). -/
theorem claim_C5_update_fov_overwrites_planes (s : Controller) (cam : Camera) (dt : ℝ)
    (h : 1 / 10 < |s.currentFOV - s.targetFOV|) :
    (updateFOV s cam dt).2.NearPlane = NEAR_PLANE ∧
    (updateFOV s cam dt).2.FarPlane = FAR_PLANE ∧
    (updateFOV s cam dt).2.projectionType = CameraType.Perspective ∧
    NEAR_PLANE = 1 / 10 ∧ FAR_PLANE = 1000 := by
  unfold updateFOV
  rw [if_pos h]
  exact ⟨rfl, rfl, rfl, rfl, rfl⟩

/-- Witness for C5: an orthographic camera with caller-set planes, driven by
a controller mid-transition (75 → 50), comes back perspective with the
default planes. -/
theorem claim_C5_witness :
    (updateFOV (setFOV defaultController 50)
        (setOrthographic defaultCamera (-5) 5 (-5) 5 2 500) (1 / 10)).2.NearPlane
      = NEAR_PLANE ∧
    (updateFOV (setFOV defaultController 50)
        (setOrthographic defaultCamera (-5) 5 (-5) 5 2 500) (1 / 10)).2.FarPlane
      = FAR_PLANE ∧
    (updateFOV (setFOV defaultController 50)
        (setOrthographic defaultCamera (-5) 5 (-5) 5 2 500) (1 / 10)).2.projectionType
      = CameraType.Perspective := by
  have h := claim_C5_update_fov_overwrites_planes (setFOV defaultController 50)
    (setOrthographic defaultCamera (-5) 5 (-5) 5 2 500) (1 / 10)
    (by show (1 : ℝ) / 10 < |75 - 50|; norm_num)
  exact ⟨h.1, h.2.1, h.2.2.1⟩

/-- C2 counterexample: `Camera::LookAt` with the target equal to the current
position does not short-circuit; the zero-length difference reaches the
unguarded `glm::normalize` (Camera.cpp:125), so the result is the NaN
propagation (`none`), not the unchanged camera. -/
theorem claim_C2_counterexample :
    lookAtC defaultCamera defaultCamera.Position = none ∧
    lookAtC defaultCamera defaultCamera.Position ≠ some defaultCamera := by
  have h : lookAtC defaultCamera defaultCamera.Position = none := by
    unfold lookAtC
    have hsub : defaultCamera.Position - defaultCamera.Position = (0 : Vec3) := by
      ext <;> simp
    rw [hsub]
    unfold Vec3.normalizeOpt
    rw [if_pos Vec3.length_zero]
    rfl
  exact ⟨h, by rw [h]; exact fun hc => Option.noConfusion hc⟩

/-- C2 amended: `Camera::LookAt` performs no zero-length check — for every
camera, calling it with the target equal to the current position reaches the
unguarded normalization of the zero vector, and the call produces NaN
orientation state (modelled `none`) instead of leaving the prior
orientation unchanged.  (The length guards the spec describes do exist in
`CameraController::ProcessKeyboard` and `UpdateFixed`, but not here.) -/
theorem claim_C2_lookat_unguarded (cam : Camera) :
    lookAtC cam cam.Position = none := by
  unfold lookAtC
  have hsub : cam.Position - cam.Position = (0 : Vec3) := by ext <;> simp
  rw [hsub]
  unfold Vec3.normalizeOpt
  rw [if_pos Vec3.length_zero]
  rfl

theorem processMouseMovement_Pitch (cam : Camera) (dx dy : ℝ) :
    (processMouseMovement cam dx dy true).Pitch =
      clampR (cam.Pitch + dy * cam.MouseSensitivity) (-89) 89 := by
  unfold processMouseMovement
  rw [updateCameraVectors_Pitch]
  simp

/-- C10: with the pitch constraint enabled, the pitch after
`ProcessMouseMovement` always lies in `[-89, 89]` (the clamp uses the
hardcoded bounds of Camera.cpp:94, independent of any settings); and at the
default sensitivity `0.1`, the offset `(0, 10000)` saturates the clamp to
exactly 89 from any pitch not below -89. -/
theorem claim_C10_pitch_clamp (cam : Camera) (dx dy : ℝ) :
    (-89 ≤ (processMouseMovement cam dx dy true).Pitch ∧
      (processMouseMovement cam dx dy true).Pitch ≤ 89) ∧
    (cam.MouseSensitivity = 1 / 10 → -89 ≤ cam.Pitch →
      (processMouseMovement cam 0 10000 true).Pitch = 89) := by
  constructor
  · rw [processMouseMovement_Pitch]
    unfold clampR
    constructor
    · exact le_max_left _ _
    · exact max_le (by norm_num) (min_le_right _ _)
  · intro hs hp
    rw [processMouseMovement_Pitch, hs]
    unfold clampR
    have h89 : (89 : ℝ) ≤ cam.Pitch + 10000 * (1 / 10) :=
      le_trans (by norm_num : (89 : ℝ) ≤ -89 + 10000 * (1 / 10))
        (add_le_add_right hp _)
    rw [min_eq_right h89]
    exact max_eq_right (by norm_num)

/-- Witness for C10 at the default camera, with the spec's test offsets. -/
theorem claim_C10_witness :
    (-89 ≤ (processMouseMovement defaultCamera 0 10000 true).Pitch ∧
      (processMouseMovement defaultCamera 0 10000 true).Pitch ≤ 89) ∧
    (processMouseMovement defaultCamera 0 10000 true).Pitch = 89 := by
  have h := claim_C10_pitch_clamp defaultCamera 0 10000
  refine ⟨h.1, h.2 ?_ ?_⟩
  · show (updateCameraVectors _).MouseSensitivity = 1 / 10
    rw [updateCameraVectors_MouseSensitivity]
    rfl
  · show (-89 : ℝ) ≤ (updateCameraVectors _).Pitch
    rw [updateCameraVectors_Pitch]
    show (-89 : ℝ) ≤ PITCH
    norm_num [PITCH]

/-- The C4 scenario: `SetFOV(50)` on a default controller whose
`currentFOV` is 75, then repeated `UpdateFOV(dt = 0.1)` steps (transition
speed 5, so the lerp factor is `5 * 0.1 = 0.5`). -/
noncomputable def c4State : ℕ → Controller × Camera
  | 0 => (setFOV defaultController 50, defaultCamera)
  | n + 1 => updateFOV (c4State n).1 (c4State n).2 (1 / 10)

/-- The `currentFOV` trajectory of the C4 scenario. -/
noncomputable def c4FOV (n : ℕ) : ℝ := (c4State n).1.currentFOV

theorem c4_target (n : ℕ) : (c4State n).1.targetFOV = 50 := by
  induction n with
  | zero => rfl
  | succ n ih => simp only [c4State]; rw [updateFOV_fst_targetFOV]; exact ih

theorem c4_speed (n : ℕ) : (c4State n).1.settings.fovTransitionSpeed = 5 := by
  induction n with
  | zero => rfl
  | succ n ih => simp only [c4State]; rw [updateFOV_fst_settings]; exact ih

theorem c4FOV_zero : c4FOV 0 = 75 := rfl

theorem c4FOV_succ (n : ℕ) :
    c4FOV (n + 1) =
      if 1 / 10 < |c4FOV n - 50| then mixR (c4FOV n) 50 (5 * (1 / 10)) else c4FOV n := by
  unfold c4FOV
  simp only [c4State]
  rw [updateFOV_fst_currentFOV, c4_target, c4_speed]

theorem c4_step_eval (a b d : ℝ) (hd : a - 50 = d) (h0 : 0 < d)
    (h1 : 1 / 10 < d) (hb : a + 5 * (1 / 10) * (50 - a) = b) :
    (if 1 / 10 < |a - 50| then mixR a 50 (5 * (1 / 10)) else a) = b := by
  rw [hd, abs_of_pos h0, if_pos h1]
  unfold mixR
  exact hb

theorem c4FOV_one : c4FOV 1 = 125 / 2 := by
  rw [c4FOV_succ, c4FOV_zero]
  exact c4_step_eval _ _ 25 (by norm_num) (by norm_num) (by norm_num) (by norm_num)

theorem c4FOV_two : c4FOV 2 = 225 / 4 := by
  rw [c4FOV_succ, c4FOV_one]
  exact c4_step_eval _ _ (25 / 2) (by norm_num) (by norm_num) (by norm_num)
    (by norm_num)

theorem c4FOV_three : c4FOV 3 = 425 / 8 := by
  rw [c4FOV_succ, c4FOV_two]
  exact c4_step_eval _ _ (25 / 4) (by norm_num) (by norm_num) (by norm_num)
    (by norm_num)

theorem c4FOV_four : c4FOV 4 = 825 / 16 := by
  rw [c4FOV_succ, c4FOV_three]
  exact c4_step_eval _ _ (25 / 8) (by norm_num) (by norm_num) (by norm_num)
    (by norm_num)

theorem c4FOV_five : c4FOV 5 = 1625 / 32 := by
  rw [c4FOV_succ, c4FOV_four]
  exact c4_step_eval _ _ (25 / 16) (by norm_num) (by norm_num) (by norm_num)
    (by norm_num)

theorem c4FOV_six : c4FOV 6 = 3225 / 64 := by
  rw [c4FOV_succ, c4FOV_five]
  exact c4_step_eval _ _ (25 / 32) (by norm_num) (by norm_num) (by norm_num)
    (by norm_num)

theorem c4FOV_seven : c4FOV 7 = 6425 / 128 := by
  rw [c4FOV_succ, c4FOV_six]
  exact c4_step_eval _ _ (25 / 64) (by norm_num) (by norm_num) (by norm_num)
    (by norm_num)

theorem c4FOV_eight : c4FOV 8 = 12825 / 256 := by
  rw [c4FOV_succ, c4FOV_seven]
  exact c4_step_eval _ _ (25 / 128) (by norm_num) (by norm_num) (by norm_num)
    (by norm_num)

theorem c4_gap_small : |(12825 : ℝ) / 256 - 50| ≤ 1 / 10 := by
  rw [show (12825 : ℝ) / 256 - 50 = 25 / 256 from by norm_num,
    abs_of_pos (by norm_num : (0 : ℝ) < 25 / 256)]
  norm_num

theorem mix_ge_50 (c : ℝ) (h : 50 ≤ c) : 50 ≤ c + 5 * (1 / 10) * (50 - c) := by
  rw [show (5 : ℝ) * (1 / 10) = 1 / 2 from by norm_num,
    show (50 : ℝ) - c = -(c - 50) from (neg_sub c 50).symm, mul_neg,
    ← sub_eq_add_neg]
  calc (50 : ℝ) = c - (c - 50) := (sub_sub_cancel c 50).symm
    _ ≤ c - 1 / 2 * (c - 50) :=
        sub_le_sub_left (mul_le_of_le_one_left (sub_nonneg.mpr h) (by norm_num)) c

/-- C4 counterexample to "converges to 50": after eight steps the state is a
fixed point of `UpdateFOV` with `currentFOV = 12825/256 = 50.09765625 ≠ 50`,
because the dead-band guard `|currentFOV - targetFOV| > 0.1`
(CameraController.cpp:335) stops all further updates. -/
theorem claim_C4_counterexample :
    c4State 9 = c4State 8 ∧ c4FOV 8 = 12825 / 256 ∧ (12825 / 256 : ℝ) ≠ 50 := by
  refine ⟨?_, c4FOV_eight, by norm_num⟩
  have h8 : (c4State 8).1.currentFOV = 12825 / 256 := c4FOV_eight
  show updateFOV (c4State 8).1 (c4State 8).2 (1 / 10) = c4State 8
  rw [updateFOV_of_close]
  · rw [c4_target, h8]
    exact not_lt.mpr c4_gap_small

/-- C4 amended: from `currentFOV = 75` with target 50, the trajectory of
repeated `UpdateFOV(0.1)` is strictly decreasing while the gap exceeds the
0.1 dead-band, never goes below 50, and converges to `12825/256`
(≈ 50.098) — the first iterate inside the dead-band, where updates stop —
which is within 0.1 of 50 but not 50 itself. -/
theorem claim_C4_fov_descent :
    (∀ n, n < 8 → c4FOV (n + 1) < c4FOV n) ∧
    (∀ n, 50 ≤ c4FOV n) ∧
    (∀ n, c4FOV (8 + n) = 12825 / 256) ∧
    |(12825 / 256 : ℝ) - 50| ≤ 1 / 10 := by
  refine ⟨?_, ?_, ?_, c4_gap_small⟩
  · intro n hn
    match n, hn with
    | 0, _ => rw [c4FOV_one, c4FOV_zero]; norm_num
    | 1, _ => rw [c4FOV_two, c4FOV_one]; norm_num
    | 2, _ => rw [c4FOV_three, c4FOV_two]; norm_num
    | 3, _ => rw [c4FOV_four, c4FOV_three]; norm_num
    | 4, _ => rw [c4FOV_five, c4FOV_four]; norm_num
    | 5, _ => rw [c4FOV_six, c4FOV_five]; norm_num
    | 6, _ => rw [c4FOV_seven, c4FOV_six]; norm_num
    | 7, _ => rw [c4FOV_eight, c4FOV_seven]; norm_num
  · intro n
    induction n with
    | zero => rw [c4FOV_zero]; norm_num
    | succ n ih =>
        rw [c4FOV_succ]
        split
        · exact mix_ge_50 _ ih
        · exact ih
  · intro n
    induction n with
    | zero => exact c4FOV_eight
    | succ n ih =>
        have : 8 + (n + 1) = (8 + n) + 1 := rfl
        rw [this, c4FOV_succ, ih, if_neg (not_lt.mpr c4_gap_small)]

/-- Witness for C4 at concrete indices of the trajectory. -/
theorem claim_C4_witness :
    c4FOV 1 < c4FOV 0 ∧ 50 ≤ c4FOV 0 ∧ c4FOV (8 + 0) = 12825 / 256 :=
  ⟨claim_C4_fov_descent.1 0 (by norm_num), claim_C4_fov_descent.2.1 0,
   claim_C4_fov_descent.2.2.1 0⟩

/-- C7: over any run of `UpdateShake` ticks, the camera position equals the
starting position plus the sum of every sampled offset: each tick with
`shakeTimer > 0` adds its freshly sampled offset to the position
(CameraController.cpp:356-359) and no branch — `ClearShake` included, which
zeroes only the controller fields and never touches the camera — subtracts
an offset back out, so the shake displacement accumulates permanently. -/
theorem claim_C7_shake_displacement_accumulates (st : Controller × Camera)
    (steps : List (ℝ × Vec3)) :
    (runShake st steps).2.Position = st.2.Position + vsum (appliedOffsets st steps) := by
  induction steps generalizing st with
  | nil =>
      rw [runShake, appliedOffsets, vsum, Vec3.add_zero']
  | cons head tail ih =>
      obtain ⟨s, cam⟩ := st
      obtain ⟨dt, r⟩ := head
      by_cases h : 0 < s.shakeTimer
      · rw [runShake, appliedOffsets, if_pos h, vsum, ih]
        have hupd : (updateShake s cam dt r).2.Position = cam.Position + shakeSample s dt r := by
          unfold updateShake; rw [if_pos h]
        rw [hupd, Vec3.add_assoc']
      · rw [runShake, appliedOffsets, if_neg h, ih]
        have hupd : (updateShake s cam dt r).2.Position = cam.Position := by
          unfold updateShake; rw [if_neg h]; split <;> rfl
        rw [hupd]

/-- The controller armed by the C6 `AddShake(1.0, 0.5)` call. -/
noncomputable def c6Mid : Controller :=
  { defaultController with shakeIntensity := 1, shakeDuration := 1 / 2,
                           shakeTimer := 1 / 2 }

theorem addShake_c6 : addShake defaultController 1 (1 / 2) = c6Mid := by
  unfold addShake
  have h1 : max defaultController.shakeIntensity
      (1 * defaultController.settings.shakeIntensity) = 1 := by
    show max (0 : ℝ) (1 * 1) = 1
    norm_num
  have h2 : max defaultController.shakeDuration (1 / 2 : ℝ) = 1 / 2 := by
    show max (0 : ℝ) (1 / 2) = 1 / 2
    norm_num
  rw [h1, h2]
  rfl

/-- The controller state after the C6 tick: intensity damped to zero, timer
negative, the stale sampled offset left in place. -/
noncomputable def c6Ctrl : Controller :=
  { defaultController with
      shakeIntensity := max 0 (1 - 5 * (3 / 4))
      shakeDuration := 1 / 2
      shakeTimer := 1 / 2 - 3 / 4
      shakeOffset := ⟨-(1 / 2), -(1 / 2), -(1 / 4)⟩ }

/-- The camera after the C6 tick: displaced by the sampled offset. -/
noncomputable def c6Cam : Camera :=
  { defaultCamera with
      Position := defaultCamera.Position + ⟨-(1 / 2), -(1 / 2), -(1 / 4)⟩ }

/-- The C6 scenario, first tick: `AddShake(1.0, 0.5)` on a default
controller, then one `UpdateShake` with `dt = 0.75` (cumulative time
≥ 0.5) and random draws `(1, 1, 1)`. -/
noncomputable def c6Step1 : Controller × Camera :=
  updateShake (addShake defaultController 1 (1 / 2)) defaultCamera (3 / 4) ⟨1, 1, 1⟩

theorem updateShake_active (s : Controller) (cam : Camera) (dt : ℝ) (r : Vec3)
    (h : 0 < s.shakeTimer) :
    updateShake s cam dt r =
      ({ s with shakeTimer := s.shakeTimer - dt
                shakeOffset := shakeSample s dt r
                shakeIntensity := max 0 (s.shakeIntensity - s.settings.shakeDamping * dt) },
       { cam with Position := cam.Position + shakeSample s dt r }) := by
  unfold updateShake
  rw [if_pos h]

theorem updateShake_inert (s : Controller) (cam : Camera) (dt : ℝ) (r : Vec3)
    (h1 : ¬ 0 < s.shakeTimer) (h2 : ¬ 0 < s.shakeIntensity) :
    updateShake s cam dt r = (s, cam) := by
  unfold updateShake
  rw [if_neg h1, if_neg h2]

/-- C6: the spec's shake-decay property fails.  `AddShake(1.0, 0.5)`
followed by a single `UpdateShake` tick of `dt = 0.75` (cumulative time
≥ 0.5) with random draws `(1, 1, 1)` leaves
`shakeOffset = (-0.5, -0.5, -0.25) ≠ (0,0,0)`: the tick enters the
`shakeTimer > 0` branch, drives the timer to `-0.25`, and samples an offset
with the *negative* scale `intensity * (timer / duration)`
(CameraController.cpp:350); damping has already zeroed `shakeIntensity`, so
the expiry branch's `if (m_shakeIntensity > 0) ClearShake()`
(CameraController.cpp:365) never fires and a further tick leaves the stale
offset in place forever. -/
theorem claim_C6_stale_shake_offset :
    c6Step1.1.shakeOffset = ⟨-(1 / 2), -(1 / 2), -(1 / 4)⟩ ∧
    c6Step1.1.shakeIntensity = 0 ∧
    updateShake c6Step1.1 c6Step1.2 1 0 = c6Step1 ∧
    (⟨-(1 / 2), -(1 / 2), -(1 / 4)⟩ : Vec3) ≠ 0 := by
  have hguard : (0 : ℝ) < c6Mid.shakeTimer := by
    show (0 : ℝ) < 1 / 2
    norm_num
  have hsample : shakeSample c6Mid (3 / 4) ⟨1, 1, 1⟩ =
      ⟨-(1 / 2), -(1 / 2), -(1 / 4)⟩ := by
    unfold shakeSample
    ext
    · show (1 : ℝ) * (1 * ((1 / 2 - 3 / 4) / (1 / 2))) = -(1 / 2)
      norm_num
    · show (1 : ℝ) * (1 * ((1 / 2 - 3 / 4) / (1 / 2))) = -(1 / 2)
      norm_num
    · show (1 : ℝ) * (1 * ((1 / 2 - 3 / 4) / (1 / 2))) * (1 / 2) = -(1 / 4)
      norm_num
  have hstep : c6Step1 = (c6Ctrl, c6Cam) := by
    unfold c6Step1
    rw [addShake_c6, updateShake_active _ _ _ _ hguard, hsample]
    rfl
  refine ⟨?_, ?_, ?_, ?_⟩
  · rw [hstep]
    rfl
  · rw [hstep]
    exact max_eq_left (by norm_num)
  · rw [hstep]
    exact updateShake_inert c6Ctrl c6Cam 1 0
      (by show ¬ (0 : ℝ) < 1 / 2 - 3 / 4; norm_num)
      (by
        show ¬ (0 : ℝ) < max 0 (1 - 5 * (3 / 4))
        exact not_lt.mpr (max_le le_rfl (by norm_num)))
  · intro h
    have hx := congrArg Vec3.x h
    norm_num at hx

/-- Front is a unit vector: scalar form over abstract sines and cosines,
instantiated with `sin/cos (radians Yaw)` and `sin/cos (radians Pitch)`. -/
theorem trig_ff (sY cY sP cP : ℝ) (hY : sY ^ 2 + cY ^ 2 = 1)
    (hP : sP ^ 2 + cP ^ 2 = 1) :
    Vec3.dot ⟨cY * cP, sP, sY * cP⟩ ⟨cY * cP, sP, sY * cP⟩ = 1 := by
  have hY2 : cY ^ 2 + sY ^ 2 = 1 := by rw [add_comm]; exact hY
  have hP2 : cP ^ 2 + sP ^ 2 = 1 := by rw [add_comm]; exact hP
  unfold Vec3.dot
  dsimp only
  rw [mul_mul_mul_comm cY cP cY cP, mul_mul_mul_comm sY cP sY cP, add_right_comm,
    ← add_mul, ← pow_two, ← pow_two, hY2, one_mul, ← pow_two, ← pow_two, hP2]

/-- The unrolled right vector is a unit vector. -/
theorem trig_rr (sY cY : ℝ) (hY : sY ^ 2 + cY ^ 2 = 1) :
    Vec3.dot ⟨-sY, 0, cY⟩ ⟨-sY, 0, cY⟩ = 1 := by
  unfold Vec3.dot
  dsimp only
  rw [neg_mul_neg, zero_mul, add_zero, ← pow_two, ← pow_two]
  exact hY

/-- The unrolled up vector is a unit vector. -/
theorem trig_uu (sY cY sP cP : ℝ) (hY : sY ^ 2 + cY ^ 2 = 1)
    (hP : sP ^ 2 + cP ^ 2 = 1) :
    Vec3.dot ⟨-cY * sP, cP, -sY * sP⟩ ⟨-cY * sP, cP, -sY * sP⟩ = 1 := by
  have hY2 : cY ^ 2 + sY ^ 2 = 1 := by rw [add_comm]; exact hY
  unfold Vec3.dot
  dsimp only
  rw [mul_mul_mul_comm (-cY) sP (-cY) sP, mul_mul_mul_comm (-sY) sP (-sY) sP,
    neg_mul_neg, neg_mul_neg, add_right_comm, ← add_mul, ← pow_two, ← pow_two,
    hY2, one_mul, ← pow_two, ← pow_two, hP]

/-- Front and the unrolled right vector are orthogonal. -/
theorem trig_fr (sY cY sP cP : ℝ) :
    Vec3.dot ⟨cY * cP, sP, sY * cP⟩ ⟨-sY, 0, cY⟩ = 0 := by
  unfold Vec3.dot
  dsimp only
  rw [mul_zero, add_zero, mul_neg, neg_add_eq_zero, mul_comm (cY * cP) sY,
    ← mul_assoc, mul_right_comm sY cY cP]

/-- Front and the unrolled up vector are orthogonal. -/
theorem trig_fu (sY cY sP cP : ℝ) (hY : sY ^ 2 + cY ^ 2 = 1) :
    Vec3.dot ⟨cY * cP, sP, sY * cP⟩ ⟨-cY * sP, cP, -sY * sP⟩ = 0 := by
  have hY2 : cY ^ 2 + sY ^ 2 = 1 := by rw [add_comm]; exact hY
  unfold Vec3.dot
  dsimp only
  rw [mul_mul_mul_comm cY cP (-cY) sP, mul_mul_mul_comm sY cP (-sY) sP,
    mul_neg cY cY, mul_neg sY sY, neg_mul, neg_mul, add_right_comm, ← neg_add,
    ← add_mul, ← pow_two, ← pow_two, hY2, one_mul, mul_comm sP cP,
    neg_add_cancel]

/-- The unrolled right and up vectors are orthogonal. -/
theorem trig_ru (sY cY sP cP : ℝ) :
    Vec3.dot ⟨-sY, 0, cY⟩ ⟨-cY * sP, cP, -sY * sP⟩ = 0 := by
  unfold Vec3.dot
  dsimp only
  rw [zero_mul, add_zero, ← mul_assoc, ← mul_assoc, neg_mul_neg, mul_neg,
    neg_mul, mul_comm sY cY, add_neg_cancel]

/-- `cross front worldUp` is `cos pitch` times the unrolled right vector. -/
theorem trig_fxup (sY cY sP cP : ℝ) :
    Vec3.cross ⟨cY * cP, sP, sY * cP⟩ ⟨0, 1, 0⟩ = cP • ⟨-sY, 0, cY⟩ := by
  unfold Vec3.cross
  ext <;> dsimp only [Vec3.smul_def]
  · rw [mul_zero, mul_one, zero_sub, mul_neg, mul_comm sY cP]
  · rw [mul_zero, mul_zero, mul_zero, sub_zero]
  · rw [mul_one, mul_zero, sub_zero, mul_comm cY cP]

/-- `cross right front` is the unrolled up vector. -/
theorem trig_rxf (sY cY sP cP : ℝ) (hY : sY ^ 2 + cY ^ 2 = 1) :
    Vec3.cross ⟨-sY, 0, cY⟩ ⟨cY * cP, sP, sY * cP⟩ = ⟨-cY * sP, cP, -sY * sP⟩ := by
  have hY2 : cY ^ 2 + sY ^ 2 = 1 := by rw [add_comm]; exact hY
  unfold Vec3.cross
  ext <;> dsimp only
  · rw [zero_mul, zero_sub, neg_mul]
  · rw [neg_mul, sub_neg_eq_add, ← mul_assoc, ← mul_assoc, ← add_mul,
      ← pow_two, ← pow_two, hY2, one_mul]
  · rw [zero_mul, sub_zero]

/-- `cross front right` is minus the unrolled up vector. -/
theorem trig_fxr (sY cY sP cP : ℝ) (hY : sY ^ 2 + cY ^ 2 = 1) :
    Vec3.cross ⟨cY * cP, sP, sY * cP⟩ ⟨-sY, 0, cY⟩ = -⟨-cY * sP, cP, -sY * sP⟩ := by
  unfold Vec3.cross
  ext <;> dsimp only [Vec3.neg_def]
  · rw [mul_zero, sub_zero, neg_mul, neg_neg, mul_comm sP cY]
  · rw [mul_neg, mul_right_comm sY cP sY, mul_right_comm cY cP cY,
      sub_eq_add_neg, ← neg_add, ← add_mul, ← pow_two, ← pow_two, hY, one_mul]
  · rw [mul_zero, zero_sub, mul_neg, neg_neg, neg_mul, neg_neg, mul_comm sP sY]

/-- `cross front up` is the unrolled right vector. -/
theorem trig_fxu (sY cY sP cP : ℝ) (hP : sP ^ 2 + cP ^ 2 = 1) :
    Vec3.cross ⟨cY * cP, sP, sY * cP⟩ ⟨-cY * sP, cP, -sY * sP⟩ = ⟨-sY, 0, cY⟩ := by
  have hP2 : cP ^ 2 + sP ^ 2 = 1 := by rw [add_comm]; exact hP
  unfold Vec3.cross
  ext <;> dsimp only
  · rw [mul_comm (-sY) sP, ← mul_assoc, mul_neg, mul_comm sY cP,
      mul_right_comm cP sY cP, sub_eq_add_neg, ← neg_add, ← add_mul,
      ← pow_two, ← pow_two, hP, one_mul]
  · rw [mul_mul_mul_comm sY cP (-cY) sP, mul_mul_mul_comm cY cP (-sY) sP,
      mul_neg sY cY, mul_neg cY sY, neg_mul, neg_mul, sub_neg_eq_add,
      mul_comm sY cY, neg_add_cancel]
  · rw [mul_comm (-cY) sP, ← mul_assoc, mul_neg, sub_neg_eq_add,
      mul_comm cY cP, mul_right_comm cP cY cP, ← add_mul, ← pow_two,
      ← pow_two, hP2, one_mul]

theorem dot_frontRaw (cam : Camera) : Vec3.dot (frontRaw cam) (frontRaw cam) = 1 :=
  trig_ff (Real.sin (radians cam.Yaw)) (Real.cos (radians cam.Yaw))
    (Real.sin (radians cam.Pitch)) (Real.cos (radians cam.Pitch))
    (Real.sin_sq_add_cos_sq _) (Real.sin_sq_add_cos_sq _)

theorem camFront_eq (cam : Camera) : camFront cam = frontRaw cam :=
  Vec3.normalize_of_length_one (Vec3.length_eq_one_of_dot _ (dot_frontRaw cam))

theorem arcsin_sqrt_two_div_two : Real.arcsin (Real.sqrt 2 / 2) = Real.pi / 4 := by
  rw [← Real.sin_pi_div_four]
  exact Real.arcsin_sin
    (le_trans (neg_nonpos_of_nonneg (by positivity)) (by positivity))
    (div_le_div_of_nonneg_left (le_of_lt Real.pi_pos) (by norm_num) (by norm_num))

theorem mkCamera_Position (position up : Vec3) (yaw pitch roll : ℝ) :
    (mkCamera position up yaw pitch roll).Position = position := by
  unfold mkCamera; rw [updateCameraVectors_Position]

theorem mkCamera_Roll (position up : Vec3) (yaw pitch roll : ℝ) :
    (mkCamera position up yaw pitch roll).Roll = roll := by
  unfold mkCamera; rw [updateCameraVectors_Roll]

/-- The default camera with the yaw/pitch that `LookAt(1,1,0)` computes:
yaw 0, pitch `-45` (from `asin(-dy)`). -/
noncomputable def c1Pre : Camera := { defaultCamera with Yaw := 0, Pitch := -45 }

/-- The camera `LookAt(1,1,0)` actually produces from the default camera:
`UpdateCameraVectors` applied to `c1Pre`. -/
noncomputable def c1Cam : Camera := updateCameraVectors c1Pre

theorem c1_sub : (⟨1, 1, 0⟩ : Vec3) - defaultCamera.Position = ⟨1, 1, 0⟩ := by
  have hpos : defaultCamera.Position = ⟨0, 0, 0⟩ := mkCamera_Position _ _ _ _ _
  rw [hpos]
  ext <;> exact sub_zero _

theorem c1_len : Vec3.length (⟨1, 1, 0⟩ : Vec3) = Real.sqrt 2 := by
  unfold Vec3.length
  rw [show Vec3.dot ⟨1, 1, 0⟩ ⟨1, 1, 0⟩ = 2 by unfold Vec3.dot; norm_num]

theorem c1_norm : Vec3.normalize (⟨1, 1, 0⟩ : Vec3) =
    ⟨Real.sqrt 2 / 2, Real.sqrt 2 / 2, 0⟩ := by
  have hs2 : Real.sqrt 2 * Real.sqrt 2 = 2 := Real.mul_self_sqrt (by norm_num)
  have hs2ne : Real.sqrt 2 ≠ 0 := by
    intro h
    rw [h] at hs2
    norm_num at hs2
  have h12 : (1 : ℝ) / Real.sqrt 2 = Real.sqrt 2 / 2 := by
    rw [div_eq_div_iff hs2ne (by norm_num : (2 : ℝ) ≠ 0), one_mul, hs2]
  unfold Vec3.normalize
  rw [c1_len]
  ext <;> dsimp
  · rw [mul_one, h12]
  · rw [mul_one, h12]
  · rw [mul_zero]

theorem c1_norm_opt : Vec3.normalizeOpt ((⟨1, 1, 0⟩ : Vec3) - defaultCamera.Position) =
    some ⟨Real.sqrt 2 / 2, Real.sqrt 2 / 2, 0⟩ := by
  rw [c1_sub]
  unfold Vec3.normalizeOpt
  rw [if_neg (c1_len ▸ ne_of_gt (Real.sqrt_pos.mpr (by norm_num))), c1_norm]

theorem c1_yaw : degrees (atan2 (⟨Real.sqrt 2 / 2, Real.sqrt 2 / 2, 0⟩ : Vec3).z
    (⟨Real.sqrt 2 / 2, Real.sqrt 2 / 2, 0⟩ : Vec3).x) = 0 := by
  show degrees (atan2 0 (Real.sqrt 2 / 2)) = 0
  unfold atan2
  rw [if_pos (by positivity), zero_div, Real.arctan_zero]
  unfold degrees
  rw [zero_mul, zero_div]

theorem c1_pitch : clampR (degrees (Real.arcsin
    (-(⟨Real.sqrt 2 / 2, Real.sqrt 2 / 2, 0⟩ : Vec3).y))) (-89) 89 = -45 := by
  show clampR (degrees (Real.arcsin (-(Real.sqrt 2 / 2)))) (-89) 89 = -45
  rw [Real.arcsin_neg, arcsin_sqrt_two_div_two]
  unfold degrees
  rw [show -(Real.pi / 4) * 180 / Real.pi = -45 by
    rw [neg_mul, neg_div, div_mul_eq_mul_div, div_div,
      mul_comm (4 : ℝ) Real.pi,
      mul_div_mul_left 180 4 (ne_of_gt Real.pi_pos)]
    norm_num]
  unfold clampR
  norm_num

theorem lookAtC_c1 : lookAtC defaultCamera ⟨1, 1, 0⟩ = some c1Cam := by
  unfold lookAtC
  rw [c1_norm_opt, Option.map_some', c1_yaw, c1_pitch]
  rfl

theorem c1_front : c1Cam.Front = ⟨Real.sqrt 2 / 2, -(Real.sqrt 2 / 2), 0⟩ := by
  have hfr : frontRaw c1Pre = ⟨Real.sqrt 2 / 2, -(Real.sqrt 2 / 2), 0⟩ := by
    unfold frontRaw
    have hr0 : radians c1Pre.Yaw = 0 := by
      show radians 0 = 0
      unfold radians
      rw [zero_mul, zero_div]
    have hr45 : radians c1Pre.Pitch = -(Real.pi / 4) := by
      show radians (-45) = -(Real.pi / 4)
      unfold radians
      rw [neg_mul, neg_div, mul_comm, mul_div_assoc,
        show (45 : ℝ) / 180 = 1 / 4 from by norm_num, mul_one_div]
    rw [hr0, hr45]
    ext <;> dsimp
    · rw [Real.cos_zero, Real.cos_neg, Real.cos_pi_div_four, one_mul]
    · rw [Real.sin_neg, Real.sin_pi_div_four]
    · rw [Real.sin_zero, zero_mul]
  unfold c1Cam
  rw [updateCameraVectors_Front, camFront_eq, hfr]

/-- C1: `LookAt` does not aim at the target.  From the default camera at the
origin with the target `(1,1,0)`, the code computes `pitch = asin(-dy)`
(Camera.cpp:129) while `UpdateCameraVectors` sets `front.y = sin(pitch)`
(Camera.cpp:224), so the resulting front is `(√2/2, -√2/2, 0)` — the target
direction mirrored across the XZ plane — and
`dot(normalize(target - position), front) = 0`, far outside the claimed
`≈ 1 within 1e-4` (and the offset is non-zero with `|asin(-dy)| = 45° ≤
89°`, so the claim's hypotheses hold at this input). -/
theorem claim_C1_lookat_misaims :
    ((lookAtC defaultCamera ⟨1, 1, 0⟩).map fun c =>
        Vec3.dot (Vec3.normalize ((⟨1, 1, 0⟩ : Vec3) - defaultCamera.Position)) c.Front)
      = some 0 ∧
    ¬ |(0 : ℝ) - 1| ≤ 1 / 10000 := by
  constructor
  · rw [lookAtC_c1, Option.map_some']
    refine congrArg some ?_
    rw [c1_sub, c1_norm, c1_front]
    unfold Vec3.dot
    dsimp
    rw [mul_neg, add_neg_cancel, zero_mul, add_zero]
  · rw [zero_sub, abs_neg, abs_one]
    norm_num

theorem cos_radians_pos {p : ℝ} (h1 : -89 ≤ p) (h2 : p ≤ 89) :
    0 < Real.cos (radians p) := by
  apply Real.cos_pos_of_mem_Ioo
  rw [Set.mem_Ioo]
  unfold radians
  have h180 : (0 : ℝ) < 180 := by norm_num
  have hlo : (-89) * Real.pi / 180 ≤ p * Real.pi / 180 :=
    (div_le_div_right h180).mpr (mul_le_mul_of_nonneg_right h1 (le_of_lt Real.pi_pos))
  have hhi : p * Real.pi / 180 ≤ 89 * Real.pi / 180 :=
    (div_le_div_right h180).mpr (mul_le_mul_of_nonneg_right h2 (le_of_lt Real.pi_pos))
  have elo : (-90) * Real.pi / 180 = -(Real.pi / 2) := by
    rw [neg_mul, neg_div, mul_comm, mul_div_assoc,
      show (90 : ℝ) / 180 = 1 / 2 from by norm_num, mul_one_div]
  have ehi : 90 * Real.pi / 180 = Real.pi / 2 := by
    rw [mul_comm, mul_div_assoc, show (90 : ℝ) / 180 = 1 / 2 from by norm_num,
      mul_one_div]
  constructor
  · refine lt_of_lt_of_le (elo ▸ ?_) hlo
    exact (div_lt_div_right h180).mpr
      ((mul_lt_mul_right Real.pi_pos).mpr (by norm_num))
  · refine lt_of_le_of_lt hhi (ehi ▸ ?_)
    exact (div_lt_div_right h180).mpr
      ((mul_lt_mul_right Real.pi_pos).mpr (by norm_num))

theorem camRight_closed (cam : Camera) (hup : cam.WorldUp = ⟨0, 1, 0⟩)
    (hcos : 0 < Real.cos (radians cam.Pitch)) :
    camRight cam = ⟨-Real.sin (radians cam.Yaw), 0, Real.cos (radians cam.Yaw)⟩ := by
  have t2 := trig_rr (Real.sin (radians cam.Yaw)) (Real.cos (radians cam.Yaw))
    (Real.sin_sq_add_cos_sq _)
  have hcr : Vec3.cross (frontRaw cam) ⟨0, 1, 0⟩ =
      Real.cos (radians cam.Pitch) •
        (⟨-Real.sin (radians cam.Yaw), 0, Real.cos (radians cam.Yaw)⟩ : Vec3) :=
    trig_fxup (Real.sin (radians cam.Yaw)) (Real.cos (radians cam.Yaw))
      (Real.sin (radians cam.Pitch)) (Real.cos (radians cam.Pitch))
  unfold camRight
  rw [camFront_eq, hup, hcr]
  exact Vec3.normalize_smul_pos hcos (Vec3.length_eq_one_of_dot _ t2)

theorem camUp_closed (cam : Camera) (hup : cam.WorldUp = ⟨0, 1, 0⟩)
    (hcos : 0 < Real.cos (radians cam.Pitch)) :
    camUp cam = ⟨-Real.cos (radians cam.Yaw) * Real.sin (radians cam.Pitch),
                 Real.cos (radians cam.Pitch),
                 -Real.sin (radians cam.Yaw) * Real.sin (radians cam.Pitch)⟩ := by
  have t3 := trig_uu (Real.sin (radians cam.Yaw)) (Real.cos (radians cam.Yaw))
    (Real.sin (radians cam.Pitch)) (Real.cos (radians cam.Pitch))
    (Real.sin_sq_add_cos_sq _) (Real.sin_sq_add_cos_sq _)
  have hcr : Vec3.cross
      (⟨-Real.sin (radians cam.Yaw), 0, Real.cos (radians cam.Yaw)⟩ : Vec3) (frontRaw cam) =
      ⟨-Real.cos (radians cam.Yaw) * Real.sin (radians cam.Pitch),
       Real.cos (radians cam.Pitch),
       -Real.sin (radians cam.Yaw) * Real.sin (radians cam.Pitch)⟩ :=
    trig_rxf (Real.sin (radians cam.Yaw)) (Real.cos (radians cam.Yaw))
      (Real.sin (radians cam.Pitch)) (Real.cos (radians cam.Pitch))
      (Real.sin_sq_add_cos_sq _)
  unfold camUp
  rw [camRight_closed cam hup hcos, camFront_eq, hcr]
  exact Vec3.normalize_of_length_one (Vec3.length_eq_one_of_dot _ t3)

/-- Expands a dot product of two linear combinations of an orthonormal
pair. -/
theorem dot_combo (a b c d : ℝ) (r u : Vec3)
    (hrr : Vec3.dot r r = 1) (huu : Vec3.dot u u = 1)
    (hru : Vec3.dot r u = 0) (hur : Vec3.dot u r = 0) :
    Vec3.dot (a • r + b • u) (c • r + d • u) = a * c + b * d := by
  rw [Vec3.dot_add_left, Vec3.dot_smul_left, Vec3.dot_smul_left,
    Vec3.dot_add_right, Vec3.dot_add_right, Vec3.dot_smul_right,
    Vec3.dot_smul_right, Vec3.dot_smul_right, Vec3.dot_smul_right,
    hrr, hru, hur, huu, mul_one, mul_zero, add_zero, mul_zero, zero_add,
    mul_one]

/-- A vector orthogonal to `r` and `u` is orthogonal to their linear
combinations. -/
theorem dot_f_combo (a b : ℝ) (f r u : Vec3)
    (hfr : Vec3.dot f r = 0) (hfu : Vec3.dot f u = 0) :
    Vec3.dot f (a • r + b • u) = 0 := by
  rw [Vec3.dot_add_right, Vec3.dot_smul_right, Vec3.dot_smul_right, hfr, hfu,
    mul_zero, mul_zero, add_zero]

/-- The roll rotation about a unit front axis carries an orthonormal triple
into an orthonormal triple: abstract form used for the `|roll| > ε` branch
of `UpdateCameraVectors`. -/
theorem rodrigues_orthonormal (θ : ℝ) (f r u : Vec3)
    (hnf : Vec3.normalize f = f)
    (hrr : Vec3.dot r r = 1) (huu : Vec3.dot u u = 1)
    (hfr : Vec3.dot f r = 0) (hfu : Vec3.dot f u = 0) (hru : Vec3.dot r u = 0)
    (hcfr : Vec3.cross f r = -u) (hcfu : Vec3.cross f u = r) :
    Vec3.dot (rodrigues θ f r) (rodrigues θ f r) = 1 ∧
    Vec3.dot (rodrigues θ f u) (rodrigues θ f u) = 1 ∧
    Vec3.dot f (rodrigues θ f r) = 0 ∧
    Vec3.dot f (rodrigues θ f u) = 0 ∧
    Vec3.dot (rodrigues θ f r) (rodrigues θ f u) = 0 := by
  have hT := Real.sin_sq_add_cos_sq θ
  have hRr : rodrigues θ f r = Real.cos θ • r + (-Real.sin θ) • u := by
    simp only [rodrigues]
    rw [hnf, hcfr, hfr, mul_zero, Vec3.smul_neg', Vec3.zero_smul', Vec3.add_zero']
  have hRu : rodrigues θ f u = Real.sin θ • r + Real.cos θ • u := by
    simp only [rodrigues]
    rw [hnf, hcfu, hfu, mul_zero, Vec3.zero_smul', Vec3.add_zero', Vec3.add_comm']
  have hur : Vec3.dot u r = 0 := by rw [Vec3.dot_comm]; exact hru
  refine ⟨?_, ?_, ?_, ?_, ?_⟩
  · rw [hRr, dot_combo _ _ _ _ r u hrr huu hru hur, neg_mul_neg, ← pow_two,
      ← pow_two, add_comm]
    exact hT
  · rw [hRu, dot_combo _ _ _ _ r u hrr huu hru hur, ← pow_two, ← pow_two]
    exact hT
  · rw [hRr, dot_f_combo _ _ f r u hfr hfu]
  · rw [hRu, dot_f_combo _ _ f r u hfr hfu]
  · rw [hRr, hRu, dot_combo _ _ _ _ r u hrr huu hru hur, neg_mul,
      mul_comm (Real.sin θ) (Real.cos θ), add_neg_cancel]

/-- C3: for any yaw and roll and any pitch in `[-89°, 89°]`, with the
default world up `(0,1,0)`, the `front`, `right`, `up` produced by
`UpdateCameraVectors` are exactly unit length and exactly pairwise
orthogonal (so in particular within any floating-point tolerance), in both
the rolled and unrolled branches (Camera.cpp:220-238). -/
theorem claim_C3_orthonormal_basis (cam : Camera)
    (hup : cam.WorldUp = ⟨0, 1, 0⟩) (h1 : -89 ≤ cam.Pitch) (h2 : cam.Pitch ≤ 89) :
    Vec3.length (updateCameraVectors cam).Front = 1 ∧
    Vec3.length (updateCameraVectors cam).Right = 1 ∧
    Vec3.length (updateCameraVectors cam).Up = 1 ∧
    Vec3.dot (updateCameraVectors cam).Front (updateCameraVectors cam).Right = 0 ∧
    Vec3.dot (updateCameraVectors cam).Front (updateCameraVectors cam).Up = 0 ∧
    Vec3.dot (updateCameraVectors cam).Right (updateCameraVectors cam).Up = 0 := by
  have hcos := cos_radians_pos h1 h2
  have hY := Real.sin_sq_add_cos_sq (radians cam.Yaw)
  have hP := Real.sin_sq_add_cos_sq (radians cam.Pitch)
  have t2 := trig_rr (Real.sin (radians cam.Yaw)) (Real.cos (radians cam.Yaw)) hY
  have t3 := trig_uu (Real.sin (radians cam.Yaw)) (Real.cos (radians cam.Yaw))
    (Real.sin (radians cam.Pitch)) (Real.cos (radians cam.Pitch)) hY hP
  have t6 := trig_ru (Real.sin (radians cam.Yaw)) (Real.cos (radians cam.Yaw))
    (Real.sin (radians cam.Pitch)) (Real.cos (radians cam.Pitch))
  have hf : Vec3.dot (frontRaw cam) (frontRaw cam) = 1 :=
    trig_ff (Real.sin (radians cam.Yaw)) (Real.cos (radians cam.Yaw))
      (Real.sin (radians cam.Pitch)) (Real.cos (radians cam.Pitch)) hY hP
  have hnf : Vec3.normalize (frontRaw cam) = frontRaw cam :=
    Vec3.normalize_of_length_one (Vec3.length_eq_one_of_dot _ hf)
  have hfr : Vec3.dot (frontRaw cam)
      ⟨-Real.sin (radians cam.Yaw), 0, Real.cos (radians cam.Yaw)⟩ = 0 :=
    trig_fr (Real.sin (radians cam.Yaw)) (Real.cos (radians cam.Yaw))
      (Real.sin (radians cam.Pitch)) (Real.cos (radians cam.Pitch))
  have hfu : Vec3.dot (frontRaw cam)
      ⟨-Real.cos (radians cam.Yaw) * Real.sin (radians cam.Pitch),
        Real.cos (radians cam.Pitch),
        -Real.sin (radians cam.Yaw) * Real.sin (radians cam.Pitch)⟩ = 0 :=
    trig_fu (Real.sin (radians cam.Yaw)) (Real.cos (radians cam.Yaw))
      (Real.sin (radians cam.Pitch)) (Real.cos (radians cam.Pitch)) hY
  have hcfr : Vec3.cross (frontRaw cam)
      ⟨-Real.sin (radians cam.Yaw), 0, Real.cos (radians cam.Yaw)⟩ =
      -(⟨-Real.cos (radians cam.Yaw) * Real.sin (radians cam.Pitch),
         Real.cos (radians cam.Pitch),
         -Real.sin (radians cam.Yaw) * Real.sin (radians cam.Pitch)⟩ : Vec3) :=
    trig_fxr (Real.sin (radians cam.Yaw)) (Real.cos (radians cam.Yaw))
      (Real.sin (radians cam.Pitch)) (Real.cos (radians cam.Pitch)) hY
  have hcfu : Vec3.cross (frontRaw cam)
      ⟨-Real.cos (radians cam.Yaw) * Real.sin (radians cam.Pitch),
        Real.cos (radians cam.Pitch),
        -Real.sin (radians cam.Yaw) * Real.sin (radians cam.Pitch)⟩ =
      ⟨-Real.sin (radians cam.Yaw), 0, Real.cos (radians cam.Yaw)⟩ :=
    trig_fxu (Real.sin (radians cam.Yaw)) (Real.cos (radians cam.Yaw))
      (Real.sin (radians cam.Pitch)) (Real.cos (radians cam.Pitch)) hP
  have hright := camRight_closed cam hup hcos
  have hupv := camUp_closed cam hup hcos
  by_cases hroll : 1 / 1000 < |cam.Roll|
  · rw [updateCameraVectors_Front, updateCameraVectors_Right_roll cam hroll,
      updateCameraVectors_Up_roll cam hroll, camFront_eq, hright, hupv]
    obtain ⟨o1, o2, o3, o4, o5⟩ := rodrigues_orthonormal (radians cam.Roll) (frontRaw cam)
      ⟨-Real.sin (radians cam.Yaw), 0, Real.cos (radians cam.Yaw)⟩
      ⟨-Real.cos (radians cam.Yaw) * Real.sin (radians cam.Pitch),
        Real.cos (radians cam.Pitch),
        -Real.sin (radians cam.Yaw) * Real.sin (radians cam.Pitch)⟩
      hnf t2 t3 hfr hfu t6 hcfr hcfu
    exact ⟨Vec3.length_eq_one_of_dot _ hf, Vec3.length_eq_one_of_dot _ o1,
      Vec3.length_eq_one_of_dot _ o2, o3, o4, o5⟩
  · rw [updateCameraVectors_Front, updateCameraVectors_Right_steady cam hroll,
      updateCameraVectors_Up_steady cam hroll, camFront_eq, hright, hupv]
    exact ⟨Vec3.length_eq_one_of_dot _ hf, Vec3.length_eq_one_of_dot _ t2,
      Vec3.length_eq_one_of_dot _ t3, hfr, hfu, t6⟩

theorem mkCamera_WorldUp (position up : Vec3) (yaw pitch roll : ℝ) :
    (mkCamera position up yaw pitch roll).WorldUp = up := by
  unfold mkCamera; rw [updateCameraVectors_WorldUp]

theorem mkCamera_Pitch (position up : Vec3) (yaw pitch roll : ℝ) :
    (mkCamera position up yaw pitch roll).Pitch = pitch := by
  unfold mkCamera; rw [updateCameraVectors_Pitch]

/-- Witness for C3 at the default camera (yaw -90, pitch 0, roll 0). -/
theorem claim_C3_witness :
    Vec3.length (updateCameraVectors defaultCamera).Front = 1 ∧
    Vec3.length (updateCameraVectors defaultCamera).Right = 1 ∧
    Vec3.length (updateCameraVectors defaultCamera).Up = 1 ∧
    Vec3.dot (updateCameraVectors defaultCamera).Front
      (updateCameraVectors defaultCamera).Right = 0 ∧
    Vec3.dot (updateCameraVectors defaultCamera).Front
      (updateCameraVectors defaultCamera).Up = 0 ∧
    Vec3.dot (updateCameraVectors defaultCamera).Right
      (updateCameraVectors defaultCamera).Up = 0 :=
  claim_C3_orthonormal_basis defaultCamera (mkCamera_WorldUp _ _ _ _ _)
    (by unfold defaultCamera; rw [mkCamera_Pitch]; norm_num [PITCH])
    (by unfold defaultCamera; rw [mkCamera_Pitch]; norm_num [PITCH])

end AGL
